import Mathlib

set_option maxHeartbeats 1000000

/-!
Shallow embedding of the RespondToWebhook node
(src/packages/nodes-base/nodes/RespondToWebhook/RespondToWebhook.node.ts).

The `execute` method is modelled as a pure function from an environment
(input items, node parameters, host capabilities) to either an error or a
result carrying the returned output branches together with the trace of
host calls (`sendChunk`, `sendResponse`, `putExecutionToWait`) issued
during the run.  Node versions are represented in tenths, so version 1.4
is the natural number 14.
-/

/-- Runtime JavaScript values, as far as this node manipulates them:
JSON data plus the `undefined` marker and an opaque binary/stream payload. -/
inductive JsVal where
  | undef
  | null
  | bool (b : Bool)
  | num (n : Int)
  | str (s : String)
  | arr (elems : List JsVal)
  | obj (fields : List (String × JsVal))
  | binary (data : String)

/-- JavaScript truthiness of a value. -/
def JsVal.truthy : JsVal → Bool
  | .undef => false
  | .null => false
  | .bool b => b
  | .num n => !(n == 0)
  | .str s => !(s == "")
  | _ => true

/-- Whether `typeof v` is the string `object` in JavaScript
(true for null, arrays, plain objects and stream/binary objects). -/
def JsVal.typeofObject : JsVal → Bool
  | .null => true
  | .arr _ => true
  | .obj _ => true
  | .binary _ => true
  | _ => false

/-- Model of `Array.isArray`. -/
def JsVal.isArray : JsVal → Bool
  | .arr _ => true
  | _ => false

/-- Whether a value is `undefined` or `null` (skipped by the `??` operator). -/
def JsVal.isNullish : JsVal → Bool
  | .undef => true
  | .null => true
  | _ => false

/-- Property read `v[k]`, yielding `undefined` when the key is absent or the
value is not a plain object (streams are treated as key-less objects). -/
def jsGet : JsVal → String → JsVal
  | .obj fs, k =>
    match fs.find? (fun p => p.1 == k) with
    | some p => p.2
    | none => .undef
  | _, _ => JsVal.undef -- property reads on non-objects yield undefined here

/-- Length of `Object.keys v` (streams are treated as key-less objects). -/
def jsKeysCount : JsVal → Nat
  | .obj fs => fs.length
  | _ => 0

/-- Lowercasing of a string, written over the character list so that it
reduces definitionally. -/
def lowerStr (s : String) : String :=
  String.mk (s.data.map Char.toLower)

/-- Prefix test on character lists (definitionally reducing). -/
def charsStartWith : List Char → List Char → Bool
  | _, [] => true
  | [], _ :: _ => false
  | c :: cs, d :: ds => c == d && charsStartWith cs ds

/-- Prefix test on strings (definitionally reducing). -/
def strStartsWith (s p : String) : Bool :=
  charsStartWith s.data p.data

/-- Minimal JSON string escaping used by the serializer below. -/
def jsEscape (s : String) : String :=
  s.data.foldl
    (fun acc c =>
      if c == '"' then acc ++ "\\\""
      else if c == '\\' then acc ++ "\\\\"
      else if c == '\n' then acc ++ "\\n"
      else acc.push c)
    ""

mutual

/-- Model of `JSON.stringify` (keys holding `undefined` are dropped, exact
whitespace of the two indentation variants used by the source is elided). -/
def jsStringify : JsVal → String
  | .undef => "null"
  | .null => "null"
  | .bool b => if b then "true" else "false"
  | .num n => toString n
  | .str s => "\"" ++ jsEscape s ++ "\""
  | .arr xs => "[" ++ String.intercalate "," (jsStringifyList xs) ++ "]"
  | .obj fs => "\x7b" ++ String.intercalate "," (jsStringifyFields fs) ++ "\x7d"
  | .binary _ => "\x7b\x7d"

/-- Serializes the elements of an array. -/
def jsStringifyList : List JsVal → List String
  | [] => []
  | x :: xs => jsStringify x :: jsStringifyList xs

/-- Serializes the fields of an object, dropping `undefined` members. -/
def jsStringifyFields : List (String × JsVal) → List String
  | [] => []
  | (k, v) :: fs =>
    match v with
    | .undef => jsStringifyFields fs
    | v => ("\"" ++ jsEscape k ++ "\":" ++ jsStringify v) :: jsStringifyFields fs

end

/-- Response headers: an association list with lowercase keys, later writes
to the same key overwriting the earlier value in place. -/
abbrev Headers := List (String × String)

/-- Assignment `headers[k] = v` on a JavaScript object. -/
def setHeader (hs : Headers) (k v : String) : Headers :=
  if hs.any (fun p => p.1 == k) then
    hs.map (fun p => if p.1 == k then (k, v) else p)
  else hs ++ [(k, v)]

/-- Header lookup `headers[k]`, `none` when the key was never assigned. -/
def headerLookup (hs : Headers) (k : String) : Option String :=
  match hs.find? (fun p => p.1 == k) with
  | some p => some p.2
  | none => none

/-- Modelled from the spec: `isHtmlRenderedContentType` from n8n-core (not
under src/), the predicate for content types a browser renders as HTML. -/
def isHtmlRenderedContentType (ct : String) : Bool :=
  strStartsWith (lowerStr ct) "text/html" || strStartsWith (lowerStr ct) "application/xhtml+xml"

/-- Modelled from the spec: `sandboxHtmlResponse` from n8n-core (not under
src/), the HTML-sanitizing step that wraps a body so reflected script does
not execute when the response is rendered. -/
def sandboxHtmlResponse (html : String) : String :=
  let escaped := html.data.foldl
    (fun acc c =>
      if c == '&' then acc ++ "&amp;"
      else if c == '"' then acc ++ "&quot;"
      else acc.push c)
    ""
  "<iframe sandbox srcdoc=\"" ++ escaped ++ "\"></iframe>"

/-- A binary attachment of an item. -/
structure BinaryData where
  data : String
  mimeType : String
deriving DecidableEq

/-- Modelled from the spec: `getBinaryResponse` from ./utils/binary (not
under src/): returns the binary payload and derives content-type and
content-length response headers from it. -/
def getBinaryResponse (b : BinaryData) (hs : Headers) : JsVal × Headers :=
  (JsVal.binary b.data,
    setHeader (setHeader hs "content-type" b.mimeType) "content-length" (toString b.data.length))

/-- A workflow item: JSON payload, optional binary attachments keyed by
field name, and the optional sendMessage slot used by the chat path. -/
structure Item where
  json : JsVal
  binary : Option (List (String × BinaryData)) := none
  sendMessage : Option JsVal := none

/-- Options object of an upstream chat trigger node. -/
structure ChatTriggerOptions where
  responseMode : Option String
deriving DecidableEq

/-- Parameters of an upstream node, as read by the chat-trigger check. -/
structure NodeParameters where
  options : Option ChatTriggerOptions
deriving DecidableEq

/-- A parent node descriptor as returned by `getParentNodes`. -/
structure ConnectedNode where
  type : String
  disabled : Bool
  parameters : Option NodeParameters
deriving DecidableEq

/-- Modelled from the spec: the webhook trigger node type identifier
exported by n8n-workflow (not under src/). -/
def WEBHOOK_NODE_TYPE : String := "n8n-nodes-base.webhook"

/-- Modelled from the spec: the form trigger node type identifier. -/
def FORM_TRIGGER_NODE_TYPE : String := "n8n-nodes-base.formTrigger"

/-- Modelled from the spec: the chat trigger node type identifier. -/
def CHAT_TRIGGER_NODE_TYPE : String := "@n8n/n8n-nodes-langchain.chatTrigger"

/-- Modelled from the spec: the wait node type identifier. -/
def WAIT_NODE_TYPE : String := "n8n-nodes-base.wait"

/-- The list of webhook-style node types accepted by the parent check
(lines 361-366 of the source). -/
def WEBHOOK_NODE_TYPES : List String :=
  [WEBHOOK_NODE_TYPE, FORM_TRIGGER_NODE_TYPE, CHAT_TRIGGER_NODE_TYPE, WAIT_NODE_TYPE]

/-- Errors escaping the try block: `NodeOperationError` (a reported
configuration error) versus a raw JavaScript `TypeError`. -/
inductive Err where
  | nodeOp (message : String)
  | typeError (message : String)
deriving DecidableEq

/-- The `message` property read in the catch block. -/
def Err.message : Err → String
  | .nodeOp m => m
  | .typeError m => m

/-- The finalized HTTP response handed to `sendResponse`. -/
structure HttpResponse where
  body : JsVal
  headers : Headers
  statusCode : Int

/-- Phase argument of `sendChunk`. -/
inductive ChunkPhase where
  | begin
  | item
  | end_
deriving DecidableEq

/-- Host calls observable during one run of `execute`. -/
inductive Event where
  | sendChunk (phase : ChunkPhase) (index : Nat) (payload : JsVal)
  | sendResponse (resp : HttpResponse)
  | putExecutionToWait

/-- The `options` collection parameter of the node. -/
structure RespOptions where
  responseCode : Option Int := none
  responseHeaders : Option (List (String × String)) := none
  responseKey : Option String := none
  enableStreaming : Option Bool := none
deriving DecidableEq

/-- Environment of one `execute` run: input items, configuration and host
capabilities.  `jsonParse` and `jwtSign` stand for the external JSON
parser and the credential-fetch-plus-sign step of the jwt branch. -/
structure Env where
  items : List Item := []
  nodeVersion : Nat := 14
  connectedNodes : List ConnectedNode := []
  options : RespOptions := {}
  respondWith : String := "firstIncomingItem"
  responseBodyJsonParam : JsVal := .undef
  payloadParam : JsVal := .obj []
  responseBodyTextParam : String := ""
  redirectURL : String := ""
  responseDataSource : String := "automatically"
  inputFieldName : String := "data"
  enableResponseOutput : Bool := false
  isStreaming : Bool := false
  continueOnFail : Bool := false
  jsonParse : String → Except String JsVal := fun _ => Except.error "invalid json"
  jwtSign : JsVal → Except String String := fun _ => Except.ok "token"

/-- Line 376: `nodeVersion >= 1.5 && this.isStreaming() && options.enableStreaming !== false`. -/
def Env.shouldStream (env : Env) : Bool :=
  decide (env.nodeVersion ≥ 15) && env.isStreaming && !(env.options.enableStreaming == some false)

/-- Truthiness of `options.responseKey` (absent or empty string is falsy). -/
def respKeyTruthy (opts : RespOptions) : Bool :=
  match opts.responseKey with
  | some k => !(k == "")
  | none => false

/-- The configured `responseKey` string. -/
def respKeyVal (opts : RespOptions) : String :=
  match opts.responseKey with
  | some k => k
  | none => ""

/-- Lines 395-403: build the response headers from the configured entries,
lowercasing names, last write per name winning. -/
def buildHeaders (opts : RespOptions) : Headers :=
  match opts.responseHeaders with
  | none => []
  | some entries => entries.foldl (fun hs e => setHeader hs (lowerStr e.1) e.2) []

/-- Truthiness of `headers[content-type]`. -/
def ctTruthy (hs : Headers) : Bool :=
  match headerLookup hs "content-type" with
  | some v => !(v == "")
  | none => false

/-- Lines 405-406: `headers[content-type] && isHtmlRenderedContentType(...)`. -/
def hasHtmlCT (hs : Headers) : Bool :=
  match headerLookup hs "content-type" with
  | some v => !(v == "") && isHtmlRenderedContentType v
  | none => false

/-- Line 408: `(options.responseCode as number) || 200` (zero is falsy). -/
def initialStatus (opts : RespOptions) : Int :=
  match opts.responseCode with
  | some c => if c == 0 then 200 else c
  | none => 200

/-- Line 525: `(options.responseCode as number) ?? 307` (zero is kept). -/
def redirectStatus (opts : RespOptions) : Int :=
  match opts.responseCode with
  | some c => c
  | none => 307

/-- Modelled shallowly: lodash `set({}, path, value)` restricted to the
dot-separated object paths arising from the Put Response in Field key. -/
def nestField : List String → JsVal → JsVal
  | [], v => v
  | k :: rest, v => .obj [(k, nestField rest v)]

/-- Splits a character list at the dots of a lodash object path. -/
def splitPathChars : List Char → List Char → List String
  | [], acc => [String.mk acc.reverse]
  | c :: cs, acc =>
    if c == '.' then String.mk acc.reverse :: splitPathChars cs []
    else splitPathChars cs (c :: acc)

/-- Wrapper giving `set({}, path, value)` its string-path interface. -/
def lodashSet (path : String) (v : JsVal) : JsVal :=
  nestField (splitPathChars path.data []) v

/-- Strict JavaScript comparison with the empty string. -/
def isEmptyStr : JsVal → Bool
  | .str s => s == ""
  | _ => false

/-- Lines 548-561: derivation of the chat message handed to the host when
the execution is parked: extract `output`/`text`/`message`, default to the
empty string, and fall back to stringifying a non-empty object body. -/
def chatMessage (body : JsVal) : JsVal :=
  if body.truthy && body.typeofObject && !body.isArray then
    let m0 := jsGet body "output"
    let m1 := if m0.isNullish then jsGet body "text" else m0
    let m2 := if m1.isNullish then jsGet body "message" else m1
    let m := if m2.isNullish then JsVal.str "" else m2
    if isEmptyStr m && decide (0 < jsKeysCount body) then JsVal.str (jsStringify body) else m
  else JsVal.str ""

/-- One begin/item/end chunk triplet at a given index. -/
def tripletTrace (idx : Nat) (payload : JsVal) : List Event :=
  [Event.sendChunk .begin idx .undef,
   Event.sendChunk .item idx payload,
   Event.sendChunk .end_ idx .undef]

/-- Lines 464-469: the chunk triplets emitted (unconditionally) while
mapping over the items in the allIncomingItems branch. -/
def allItemsTrace (items : List Item) : List Event :=
  items.enum.flatMap (fun p => tripletTrace p.1 p.2.json)

/-- Lines 410-426: the json branch body (parameter pass-through for object
values, JSON parsing for strings, untouched when the parameter is falsy). -/
def jsonBody (env : Env) : Except Err JsVal :=
  if env.responseBodyJsonParam.truthy then
    if env.responseBodyJsonParam.typeofObject then .ok env.responseBodyJsonParam
    else
      match env.responseBodyJsonParam with
      | .str s =>
        match env.jsonParse s with
        | .ok v => .ok v
        | .error _ => .error (.nodeOp "Invalid JSON in \x27Response Body\x27 field")
      | v => .ok v
  else .ok JsVal.undef -- responseBody stays unassigned for a falsy parameter

/-- Lines 434-462: the jwt branch body, wrapping any signing failure. -/
def jwtBody (env : Env) : Except Err JsVal :=
  match env.jwtSign env.payloadParam with
  | .ok token => .ok (.obj [("token", .str token)])
  | .error _ => .error (.nodeOp "Error signing JWT token")

/-- Lines 470-472: the allIncomingItems body, optionally nested under the
responseKey path. -/
def allItemsBody (env : Env) : JsVal :=
  let respondItems := JsVal.arr (env.items.map (fun i => i.json))
  if respKeyTruthy env.options then lodashSet (respKeyVal env.options) respondItems
  else respondItems

/-- Lines 474-476: the firstIncomingItem body. -/
def firstItemBody (env : Env) (first : Item) : JsVal :=
  if respKeyTruthy env.options then lodashSet (respKeyVal env.options) first.json
  else first.json

/-- Lines 484-489: the text branch body, sanitized when the content type is
HTML-rendering or unset. -/
def textBranchBody (env : Env) (hs : Headers) (hasHtml : Bool) : String :=
  if hasHtml || !(ctTruthy hs) then sandboxHtmlResponse env.responseBodyTextParam
  else env.responseBodyTextParam

/-- Modelled from the spec: `assertBinaryData` host helper (n8n-core, not
under src/) as listed in the external interface section; it throws its own
reported error when the named binary field is absent. -/
def assertBinaryDataErr (name : String) : Err :=
  .nodeOp ("Expected binary data in field " ++ name ++ " but none was found")

/-- Lines 496-522: the binary branch: first-item access (a TypeError on an
empty input), the two no-binary-data checks, field-name resolution, the
assertBinaryData lookup and the binary response with derived headers. -/
def binaryOutcome (env : Env) (hs : Headers) : Except Err (JsVal × Headers) :=
  match env.items with
  | [] => .error (.typeError "Cannot read properties of undefined (reading \x27binary\x27)")
  | item :: _ =>
    match item.binary with
    | none => .error (.nodeOp "No binary data exists on the first item!")
    | some bmap =>
      let nameOrErr : Except Err String :=
        if env.responseDataSource == "set" then .ok env.inputFieldName
        else
          match bmap with
          | [] => .error (.nodeOp "No binary data exists on the first item!")
          | (k, _) :: _ => .ok k
      match nameOrErr with
      | .error e => .error e
      | .ok name =>
        match bmap.find? (fun p => p.1 == name) with
        | none => .error (assertBinaryDataErr name)
        | some p => .ok (getBinaryResponse p.2 hs)

/-- Lines 410-531: the mode dispatch, yielding the chunk trace emitted by
the branch together with either an error or the body, status code and
(possibly updated) headers. -/
def dispatchMode (env : Env) (headers : Headers) (hasHtml : Bool) (shouldStream : Bool)
    (statusCode : Int) : List Event × Except Err (JsVal × Int × Headers) :=
  if env.respondWith == "json" then
    match jsonBody env with
    | .error e => ([], .error e)
    | .ok b => ((if shouldStream then tripletTrace 0 b else []), .ok (b, statusCode, headers))
  else if env.respondWith == "jwt" then
    match jwtBody env with
    | .error e => ([], .error e)
    | .ok b => ((if shouldStream then tripletTrace 0 b else []), .ok (b, statusCode, headers))
  else if env.respondWith == "allIncomingItems" then
    (allItemsTrace env.items, .ok (allItemsBody env, statusCode, headers))
  else if env.respondWith == "firstIncomingItem" then
    match env.items with
    | [] => ([], .error (.typeError "Cannot read properties of undefined (reading \x27json\x27)"))
    | first :: _ =>
      ((if shouldStream then tripletTrace 0 first.json else []),
        .ok (firstItemBody env first, statusCode, headers))
  else if env.respondWith == "text" then
    ((if shouldStream then tripletTrace 0 (.str env.responseBodyTextParam) else []),
      .ok (.str (textBranchBody env headers hasHtml), statusCode, headers))
  else if env.respondWith == "binary" then
    match binaryOutcome env headers with
    | .error e => ([], .error e)
    | .ok (b, hs) => ([], .ok (b, statusCode, hs))
  else if env.respondWith == "redirect" then
    ([], .ok (.undef, redirectStatus env.options, setHeader headers "location" env.redirectURL))
  else if env.respondWith == "noData" then
    ([], .ok (.undef, statusCode, headers))
  else
    ([], .error (.nodeOp ("The Response Data option \"" ++ env.respondWith ++ "\" is not supported!")))

/-- The mode dispatch applied at the values `execute` computes for it. -/
def dispatchOf (env : Env) : List Event × Except Err (JsVal × Int × Headers) :=
  dispatchMode env (buildHeaders env.options) (hasHtmlCT (buildHeaders env.options))
    env.shouldStream (initialStatus env.options)

/-- Lines 533-547: find an enabled upstream chat trigger and evaluate
`parameters.options.responseMode === "responseNodes"`, raising a TypeError
when the parameters or their options object are missing. -/
def evalChatCond (nodes : List ConnectedNode) : Except Err Bool :=
  match nodes.find? (fun n => n.type == CHAT_TRIGGER_NODE_TYPE && !n.disabled) with
  | none => .ok false
  | some n =>
    match n.parameters with
    | none => .error (.typeError "Cannot read properties of undefined (reading \x27options\x27)")
    | some p =>
      match p.options with
      | none => .error (.typeError "Cannot read properties of undefined (reading \x27responseMode\x27)")
      | some o => .ok (o.responseMode == some "responseNodes")

/-- Line 381: whether some parent node has a webhook-style type. -/
def hasWebhookParent (env : Env) : Bool :=
  env.connectedNodes.any (fun n => WEBHOOK_NODE_TYPES.contains n.type)

/-- JSON view of the headers object stored in the response output branch. -/
def headersToJs (hs : Headers) : JsVal :=
  .obj (hs.map (fun p => (p.1, JsVal.str p.2)))

/-- JSON view of the response object stored in the response output branch. -/
def responseToJs (resp : HttpResponse) : JsVal :=
  .obj [("body", resp.body), ("headers", headersToJs resp.headers),
    ("statusCode", .num resp.statusCode)]

/-- Lines 598-604: the returned branches, with the extra response branch at
version 1.3 or from 1.4 on when enableResponseOutput is set. -/
def finalBranches (env : Env) (resp : HttpResponse) : List (List Item) :=
  if env.nodeVersion == 13 then
    [env.items, [{ json := .obj [("response", responseToJs resp)] }]]
  else if decide (env.nodeVersion ≥ 14) && env.enableResponseOutput then
    [env.items, [{ json := .obj [("response", responseToJs resp)] }]]
  else [env.items]

/-- Lines 567-574: the second sanitization pass applied to non-text,
non-binary truthy bodies when the content type is HTML-rendering. -/
def finalizeBody (env : Env) (body : JsVal) : JsVal :=
  if hasHtmlCT (buildHeaders env.options) && !(env.respondWith == "text")
      && !(env.respondWith == "binary") && body.truthy then
    JsVal.str (sandboxHtmlResponse (jsStringify body))
  else body

/-- Lines 582-584: the final `sendResponse` call, skipped when the run
streamed a non-binary payload. -/
def sendPart (env : Env) (resp : HttpResponse) : List Event :=
  if !env.shouldStream || env.respondWith == "binary" then [Event.sendResponse resp] else []

/-- Lines 393-584: everything after the webhook-parent check: mode
dispatch, the chat-deferral path, the second sanitization pass, and the
final `sendResponse` unless the run streamed a non-binary payload. -/
def afterCheck (env : Env) : List Event × Except Err (List (List Item)) :=
  match dispatchOf env with
  | (tr, .error e) => (tr, .error e)
  | (tr, .ok (body, sc, hs)) =>
    match evalChatCond env.connectedNodes with
    | .error e => (tr, .error e)
    | .ok true =>
      (tr ++ [Event.putExecutionToWait],
        .ok [[{ json := .obj [], sendMessage := some (chatMessage body) }]])
    | .ok false =>
      let resp : HttpResponse := { body := finalizeBody env body, headers := hs, statusCode := sc }
      (tr ++ sendPart env resp, .ok (finalBranches env resp))

/-- Lines 379-596 (try body): the version-gated webhook-parent existence
check followed by the rest of the execution. -/
def runTry (env : Env) : List Event × Except Err (List (List Item)) :=
  if decide (env.nodeVersion ≥ 11) && !hasWebhookParent env then
    ([], .error (.nodeOp "No Webhook node found in the workflow"))
  else afterCheck env

/-- Result of a non-throwing `execute` run: output branches and host-call trace. -/
structure ExecResult where
  output : List (List Item)
  trace : List Event

/-- Modelled from the spec: `generatePairedItemData` (repository utility
outside src/) produces one paired-item marker per input index. -/
def generatePairedItemData (n : Nat) : List Nat := List.range n

/-- Modelled from the spec: `constructExecutionMetaData` (n8n-core, outside
src/).  Per the spec failure policy, which emits one item per input
carrying the error record, the given error item is replicated once per
paired input entry. -/
def constructExecutionMetaData (inputData : List Item) (itemData : List Nat) : List Item :=
  itemData.flatMap (fun _ => inputData)

/-- Lines 357-605: the whole `execute` method, including the catch block
that swallows errors into error items when continueOnFail is set. -/
def execute (env : Env) : Except Err ExecResult :=
  match runTry env with
  | (tr, .ok out) => .ok { output := out, trace := tr }
  | (tr, .error e) =>
    if env.continueOnFail then
      .ok { output := [constructExecutionMetaData
              [{ json := .obj [("error", .str e.message)] }]
              (generatePairedItemData env.items.length)],
            trace := tr }
    else .error e

/-- Whether an event is a `sendChunk` call. -/
def isChunkEvent : Event → Bool
  | .sendChunk _ _ _ => true
  | _ => false

/-- Whether an event is a `sendResponse` call. -/
def isRespEvent : Event → Bool
  | .sendResponse _ => true
  | _ => false

/-- Number of responses delivered by a trace: each `sendResponse` counts as
one delivery, a nonempty chunk stream counts as one delivery. -/
def deliveryCount (tr : List Event) : Nat :=
  tr.countP (fun e => isRespEvent e) + (if tr.any isChunkEvent then 1 else 0)

/-- Trace of a run, empty for a throwing run (used to state facts about
the host calls of a concrete execution). -/
def traceOf (x : Except Err ExecResult) : List Event :=
  match x with
  | .ok r => r.trace
  | .error _ => []

/-- Number of deliveries a successful non-chat run actually performs, per
mode: one, except that allIncomingItems chunks unconditionally (two
deliveries when not streaming and nonempty, zero when streaming an empty
input) and that redirect and noData deliver nothing when streaming. -/
def expectedDeliveries (env : Env) : Nat :=
  if env.respondWith == "allIncomingItems" then
    (if env.shouldStream then 0 else 1) + (if env.items.isEmpty then 0 else 1)
  else if env.respondWith == "redirect" || env.respondWith == "noData" then
    (if env.shouldStream then 0 else 1)
  else 1

/-! Concrete environments used by the closed instances below. -/

/-- A connected webhook parent node. -/
def webhookParentNode : ConnectedNode :=
  { type := "n8n-nodes-base.webhook", disabled := false, parameters := none }

/-- An enabled upstream chat trigger configured for responseNodes. -/
def chatTriggerNode : ConnectedNode :=
  { type := "@n8n/n8n-nodes-langchain.chatTrigger"
    disabled := false
    parameters := some { options := some { responseMode := some "responseNodes" } } }

/-- An enabled upstream chat trigger whose parameters lack options. -/
def chatTriggerNodeNoOptions : ConnectedNode :=
  { type := "@n8n/n8n-nodes-langchain.chatTrigger"
    disabled := false
    parameters := some { options := none } }

/-- Version 1.5 redirect run with the host streaming. -/
def envRedirectStreaming : Env :=
  { nodeVersion := 15
    isStreaming := true
    connectedNodes := [webhookParentNode]
    respondWith := "redirect"
    redirectURL := "http://x" }

/-- Plain non-streaming json run. -/
def envJsonPlain : Env :=
  { items := [{ json := .obj [("a", .num 1)] }]
    connectedNodes := [webhookParentNode]
    respondWith := "json"
    responseBodyJsonParam := .str "x"
    jsonParse := fun _ => .ok (.obj [("a", .num 1)]) }

/-- Non-streaming allIncomingItems run with a single item. -/
def envAllItemsNoStream : Env :=
  { items := [{ json := .num 5 }]
    connectedNodes := [webhookParentNode]
    respondWith := "allIncomingItems" }

/-- Continue-on-fail json run with an invalid body and two input items. -/
def envC3invalidJson : Env :=
  { items := [{ json := .num 1 }, { json := .num 2 }]
    connectedNodes := [webhookParentNode]
    respondWith := "json"
    responseBodyJsonParam := .str "oops"
    continueOnFail := true }

/-- Chat-deferral json run whose body has an output field. -/
def envC4chat : Env :=
  { items := [{ json := .num 5 }]
    connectedNodes := [chatTriggerNode]
    respondWith := "json"
    responseBodyJsonParam := .obj [("output", .str "hi")] }

/-- Binary run with an explicit field name and an empty binary object. -/
def envC5setEmpty : Env :=
  { items := [{ json := .obj [], binary := some [] }]
    connectedNodes := [webhookParentNode]
    respondWith := "binary"
    responseDataSource := "set"
    inputFieldName := "data" }

/-- Binary run whose first item carries no binary attachment. -/
def envC5none : Env :=
  { items := [{ json := .obj [] }]
    connectedNodes := [webhookParentNode]
    respondWith := "binary" }

/-- Text run with a script-bearing body and no configured headers. -/
def envC6text : Env :=
  { items := [{ json := .num 1 }]
    connectedNodes := [webhookParentNode]
    respondWith := "text"
    responseBodyTextParam := "<script>x</script>" }

/-- Version 1.1 run with no parent nodes at all. -/
def envC7noParent : Env :=
  { items := [{ json := .num 1 }]
    nodeVersion := 11
    respondWith := "noData" }

/-- Chat-deferral text run (string body, not an object). -/
def envC8textChat : Env :=
  { items := [{ json := .num 1 }]
    connectedNodes := [chatTriggerNode]
    respondWith := "text"
    responseBodyTextParam := "hello" }

/-- Run with an enabled chat trigger missing its options object. -/
def envC9chat : Env :=
  { items := [{ json := .num 5 }]
    connectedNodes := [chatTriggerNodeNoOptions]
    respondWith := "noData" }

/-- firstIncomingItem run on an empty input at version 1.0. -/
def envC10empty : Env :=
  { items := []
    nodeVersion := 10
    respondWith := "firstIncomingItem" }

/-! Helper lemmas about traces and the structure of successful runs. -/

theorem tripletTrace_all_chunk (i : Nat) (p : JsVal) :
    (tripletTrace i p).all isChunkEvent = true := rfl

theorem flatMap_triplet_all_chunk (l : List (Nat × Item)) :
    (l.flatMap (fun p => tripletTrace p.1 p.2.json)).all isChunkEvent = true := by
  induction l with
  | nil => rfl
  | cons p t ih =>
    simp only [List.flatMap_cons, List.all_append, ih, Bool.and_true]
    rfl

theorem allItemsTrace_all_chunk (items : List Item) :
    (allItemsTrace items).all isChunkEvent = true :=
  flatMap_triplet_all_chunk items.enum

theorem allItemsTrace_any_chunk (items : List Item) :
    (allItemsTrace items).any isChunkEvent = !items.isEmpty := by
  cases items with
  | nil => rfl
  | cons x xs => rfl

theorem countP_resp_of_all_chunk (tr : List Event)
    (h : tr.all isChunkEvent = true) :
    tr.countP (fun e => isRespEvent e) = 0 := by
  rw [List.countP_eq_zero]
  intro e he
  have hc := (List.all_eq_true.mp h) e he
  cases e <;> simp_all [isChunkEvent, isRespEvent]

theorem filter_chunk_of_all_chunk (tr : List Event)
    (h : tr.all isChunkEvent = true) :
    tr.filter isChunkEvent = tr := by
  rw [List.filter_eq_self]
  intro a ha
  exact (List.all_eq_true.mp h) a ha

theorem no_resp_mem_of_all_chunk (tr : List Event)
    (h : tr.all isChunkEvent = true) :
    ∀ resp, ¬ (Event.sendResponse resp ∈ tr) := by
  intro resp hmem
  have hc := (List.all_eq_true.mp h) _ hmem
  simp [isChunkEvent] at hc

theorem execute_ok_inv (env : Env) (r : ExecResult)
    (hcf : env.continueOnFail = false) (hok : execute env = .ok r) :
    runTry env = (r.trace, .ok r.output) := by
  unfold execute at hok
  rcases hr : runTry env with ⟨tr, res⟩
  rw [hr] at hok
  cases res with
  | ok out =>
    simp only [Except.ok.injEq] at hok
    rw [← hok]
  | error e =>
    rw [hcf] at hok
    simp at hok

theorem runTry_eq_afterCheck (env : Env)
    (hwb : env.nodeVersion < 11 ∨ hasWebhookParent env = true) :
    runTry env = afterCheck env := by
  unfold runTry
  rcases hwb with hv | hw
  · have hd : decide (env.nodeVersion ≥ 11) = false := by
      simpa using Nat.not_le.mpr hv
    simp [hd]
  · simp [hw]

theorem runTry_ok_afterCheck (env : Env) (tr : List Event) (out : List (List Item))
    (h : runTry env = (tr, .ok out)) :
    afterCheck env = (tr, .ok out) := by
  unfold runTry at h
  split at h
  · exact absurd h (by simp)
  · exact h

theorem afterCheck_ok_inv (env : Env) (tr : List Event) (out : List (List Item))
    (h : afterCheck env = (tr, .ok out)) :
    ∃ body sc hs tr0, dispatchOf env = (tr0, .ok (body, sc, hs)) ∧
      ((evalChatCond env.connectedNodes = .ok true ∧
          tr = tr0 ++ [Event.putExecutionToWait] ∧
          out = [[{ json := .obj [], sendMessage := some (chatMessage body) }]]) ∨
       (evalChatCond env.connectedNodes = .ok false ∧
          tr = tr0 ++ sendPart env { body := finalizeBody env body, headers := hs, statusCode := sc } ∧
          out = finalBranches env { body := finalizeBody env body, headers := hs, statusCode := sc })) := by
  unfold afterCheck at h
  rcases hd : dispatchOf env with ⟨tr0, res⟩
  rw [hd] at h
  cases res with
  | error e => simp at h
  | ok triple =>
    rcases triple with ⟨body, sc, hs⟩
    rcases hc : evalChatCond env.connectedNodes with e | b
    · rw [hc] at h
      simp at h
    · rw [hc] at h
      cases b with
      | true =>
        simp only [Prod.mk.injEq, Except.ok.injEq] at h
        exact ⟨body, sc, hs, tr0, rfl, Or.inl ⟨rfl, h.1.symm, h.2.symm⟩⟩
      | false =>
        simp only [Prod.mk.injEq, Except.ok.injEq] at h
        exact ⟨body, sc, hs, tr0, rfl, Or.inr ⟨rfl, h.1.symm, h.2.symm⟩⟩
theorem dispatchOf_ok_shape (env : Env) (body : JsVal) (sc : Int) (hs : Headers) (tr : List Event)
    (h : dispatchOf env = (tr, .ok (body, sc, hs))) :
    (env.respondWith = "allIncomingItems" ∧ tr = allItemsTrace env.items) ∨
    ((env.respondWith = "json" ∨ env.respondWith = "jwt" ∨ env.respondWith = "text" ∨
        env.respondWith = "firstIncomingItem") ∧
      ∃ p, tr = if env.shouldStream then tripletTrace 0 p else []) ∨
    ((env.respondWith = "binary" ∨ env.respondWith = "redirect" ∨ env.respondWith = "noData") ∧
      tr = []) := by
  unfold dispatchOf dispatchMode at h
  by_cases h1 : env.respondWith = "json"
  · simp only [h1] at h
    simp only [beq_self_eq_true, if_true] at h
    rcases hb : jsonBody env with e | b
    · rw [hb] at h
      simp at h
    · rw [hb] at h
      refine Or.inr (Or.inl ⟨Or.inl h1, b, ?_⟩)
      have := congrArg Prod.fst h
      exact this.symm
  · have e1 : (env.respondWith == "json") = false := beq_eq_false_iff_ne.mpr h1
    simp only [e1, Bool.false_eq_true, if_false] at h
    by_cases h2 : env.respondWith = "jwt"
    · simp only [h2, beq_self_eq_true, if_true] at h
      rcases hb : jwtBody env with e | b
      · rw [hb] at h
        simp at h
      · rw [hb] at h
        refine Or.inr (Or.inl ⟨Or.inr (Or.inl h2), b, ?_⟩)
        exact (congrArg Prod.fst h).symm
    · have e2 : (env.respondWith == "jwt") = false := beq_eq_false_iff_ne.mpr h2
      simp only [e2, Bool.false_eq_true, if_false] at h
      by_cases h3 : env.respondWith = "allIncomingItems"
      · simp only [h3, beq_self_eq_true, if_true] at h
        exact Or.inl ⟨h3, (congrArg Prod.fst h).symm⟩
      · have e3 : (env.respondWith == "allIncomingItems") = false := beq_eq_false_iff_ne.mpr h3
        simp only [e3, Bool.false_eq_true, if_false] at h
        by_cases h4 : env.respondWith = "firstIncomingItem"
        · simp only [h4, beq_self_eq_true, if_true] at h
          rcases hi : env.items with _ | ⟨first, rest⟩
          · rw [hi] at h
            simp at h
          · rw [hi] at h
            refine Or.inr (Or.inl ⟨Or.inr (Or.inr (Or.inr h4)), first.json, ?_⟩)
            exact (congrArg Prod.fst h).symm
        · have e4 : (env.respondWith == "firstIncomingItem") = false := beq_eq_false_iff_ne.mpr h4
          simp only [e4, Bool.false_eq_true, if_false] at h
          by_cases h5 : env.respondWith = "text"
          · simp only [h5, beq_self_eq_true, if_true] at h
            refine Or.inr (Or.inl ⟨Or.inr (Or.inr (Or.inl h5)), .str env.responseBodyTextParam, ?_⟩)
            exact (congrArg Prod.fst h).symm
          · have e5 : (env.respondWith == "text") = false := beq_eq_false_iff_ne.mpr h5
            simp only [e5, Bool.false_eq_true, if_false] at h
            by_cases h6 : env.respondWith = "binary"
            · simp only [h6, beq_self_eq_true, if_true] at h
              rcases hb : binaryOutcome env (buildHeaders env.options) with e | p
              · rw [hb] at h
                simp at h
              · rw [hb] at h
                refine Or.inr (Or.inr ⟨Or.inl h6, ?_⟩)
                exact (congrArg Prod.fst h).symm
            · have e6 : (env.respondWith == "binary") = false := beq_eq_false_iff_ne.mpr h6
              simp only [e6, Bool.false_eq_true, if_false] at h
              by_cases h7 : env.respondWith = "redirect"
              · simp only [h7, beq_self_eq_true, if_true] at h
                refine Or.inr (Or.inr ⟨Or.inr (Or.inl h7), ?_⟩)
                exact (congrArg Prod.fst h).symm
              · have e7 : (env.respondWith == "redirect") = false := beq_eq_false_iff_ne.mpr h7
                simp only [e7, Bool.false_eq_true, if_false] at h
                by_cases h8 : env.respondWith = "noData"
                · simp only [h8, beq_self_eq_true, if_true] at h
                  refine Or.inr (Or.inr ⟨Or.inr (Or.inr h8), ?_⟩)
                  exact (congrArg Prod.fst h).symm
                · have e8 : (env.respondWith == "noData") = false := beq_eq_false_iff_ne.mpr h8
                  simp only [e8, Bool.false_eq_true, if_false] at h
                  simp at h

theorem dispatch_trace_all_chunk (env : Env) (body : JsVal) (sc : Int) (hs : Headers)
    (tr : List Event) (h : dispatchOf env = (tr, .ok (body, sc, hs))) :
    tr.all isChunkEvent = true := by
  rcases dispatchOf_ok_shape env body sc hs tr h with ⟨_, htr⟩ | ⟨_, p, htr⟩ | ⟨_, htr⟩
  · rw [htr]
    exact allItemsTrace_all_chunk env.items
  · rw [htr]
    split
    · exact tripletTrace_all_chunk 0 p
    · rfl
  · rw [htr]
    rfl

theorem sendPart_any_chunk (env : Env) (resp : HttpResponse) :
    (sendPart env resp).any isChunkEvent = false := by
  unfold sendPart
  split
  · rfl
  · rfl

theorem sendPart_countP_resp (env : Env) (resp : HttpResponse) :
    (sendPart env resp).countP (fun e => isRespEvent e) =
      if (!env.shouldStream || env.respondWith == "binary") = true then 1 else 0 := by
  unfold sendPart
  split
  · next hc => simp [hc, List.countP_cons, isRespEvent]
  · next hc => simp [hc]

theorem deliveryCount_append_parts (tr0 sp : List Event)
    (h0 : tr0.countP (fun e => isRespEvent e) = 0)
    (h1 : sp.any isChunkEvent = false) :
    deliveryCount (tr0 ++ sp) =
      sp.countP (fun e => isRespEvent e) + (if tr0.any isChunkEvent then 1 else 0) := by
  unfold deliveryCount
  rw [List.countP_append, h0, List.any_append, h1, Bool.or_false]
  omega
/-- C1 (amended): for every run of execute that neither throws nor takes
the chat-deferral path, the number of deliveries (sendResponse calls plus
one for a nonempty chunk stream) equals expectedDeliveries: exactly one,
except that redirect and noData deliver zero when streaming is enabled,
and allIncomingItems delivers both a chunk stream and a sendResponse when
streaming is disabled (and zero when streaming an empty input). -/
theorem c1_delivery_characterization (env : Env) (r : ExecResult)
    (hcf : env.continueOnFail = false)
    (hok : execute env = .ok r)
    (hchat : evalChatCond env.connectedNodes = .ok false) :
    deliveryCount r.trace = expectedDeliveries env := by
  have hrt := execute_ok_inv env r hcf hok
  have hac := runTry_ok_afterCheck env _ _ hrt
  obtain ⟨body, sc, hs, tr0, hdisp, hcase⟩ := afterCheck_ok_inv env _ _ hac
  rcases hcase with ⟨hct, _, _⟩ | ⟨_, htr, _⟩
  · rw [hct] at hchat
    simp at hchat
  · have hall := dispatch_trace_all_chunk env body sc hs tr0 hdisp
    have h0 := countP_resp_of_all_chunk tr0 hall
    rw [htr, deliveryCount_append_parts tr0 _ h0 (sendPart_any_chunk env _),
      sendPart_countP_resp]
    rcases dispatchOf_ok_shape env body sc hs tr0 hdisp with
      ⟨hm, htr0⟩ | ⟨hm, p, htr0⟩ | ⟨hm, htr0⟩
    · rw [htr0, allItemsTrace_any_chunk]
      have hb : (env.respondWith == "binary") = false := by
        rw [hm]
        rfl
      simp only [expectedDeliveries, hm, hb]
      cases hss : env.shouldStream <;> cases hie : env.items.isEmpty <;>
        simp [hss, hie]
    · have hb : (env.respondWith == "binary") = false := by
        rcases hm with hm | hm | hm | hm <;> rw [hm] <;> rfl
      have hexp : expectedDeliveries env = 1 := by
        rcases hm with hm | hm | hm | hm <;> simp [expectedDeliveries, hm]
      rw [hexp, htr0, hb]
      cases hss : env.shouldStream <;> simp [hss, tripletTrace, isChunkEvent]
    · rw [htr0]
      rcases hm with hm | hm | hm
      · have hb : (env.respondWith == "binary") = true := by
          rw [hm]
          rfl
        have hexp : expectedDeliveries env = 1 := by
          simp [expectedDeliveries, hm]
        rw [hexp, hb]
        simp
      · have hb : (env.respondWith == "binary") = false := by
          rw [hm]
          rfl
        have hexp : expectedDeliveries env = (if env.shouldStream then 0 else 1) := by
          simp [expectedDeliveries, hm]
        rw [hexp, hb]
        cases hss : env.shouldStream <;> simp [hss]
      · have hb : (env.respondWith == "binary") = false := by
          rw [hm]
          rfl
        have hexp : expectedDeliveries env = (if env.shouldStream then 0 else 1) := by
          simp [expectedDeliveries, hm]
        rw [hexp, hb]
        cases hss : env.shouldStream <;> simp [hss]
/-- C2 (amended): in a non-throwing run, chunks appear only for the modes
json, text, jwt, allIncomingItems and firstIncomingItem; for json, text,
jwt and firstIncomingItem they are emitted only when streaming is enabled;
binary never chunks; but allIncomingItems emits its begin/item/end
triplets unconditionally, one triplet per item, streaming or not. -/
theorem c2_chunk_characterization (env : Env) (r : ExecResult)
    (hcf : env.continueOnFail = false)
    (hok : execute env = .ok r) :
    (r.trace.any isChunkEvent = true →
      env.respondWith = "json" ∨ env.respondWith = "text" ∨ env.respondWith = "jwt" ∨
        env.respondWith = "allIncomingItems" ∨ env.respondWith = "firstIncomingItem") ∧
    ((env.respondWith = "json" ∨ env.respondWith = "text" ∨ env.respondWith = "jwt" ∨
        env.respondWith = "firstIncomingItem") →
      env.shouldStream = false → r.trace.filter isChunkEvent = []) ∧
    (env.respondWith = "binary" → r.trace.filter isChunkEvent = []) ∧
    (env.respondWith = "allIncomingItems" →
      r.trace.filter isChunkEvent = allItemsTrace env.items) := by
  have hrt := execute_ok_inv env r hcf hok
  have hac := runTry_ok_afterCheck env _ _ hrt
  obtain ⟨body, sc, hs, tr0, hdisp, hcase⟩ := afterCheck_ok_inv env _ _ hac
  have hall := dispatch_trace_all_chunk env body sc hs tr0 hdisp
  obtain ⟨rest, htr, hrest⟩ :
      ∃ rest, r.trace = tr0 ++ rest ∧ rest.any isChunkEvent = false := by
    rcases hcase with ⟨_, htr, _⟩ | ⟨_, htr, _⟩
    · exact ⟨[Event.putExecutionToWait], htr, rfl⟩
    · exact ⟨sendPart env _, htr, sendPart_any_chunk env _⟩
  have hfilter : r.trace.filter isChunkEvent = tr0 := by
    rw [htr, List.filter_append, filter_chunk_of_all_chunk tr0 hall]
    have : rest.filter isChunkEvent = [] := by
      rw [List.filter_eq_nil_iff]
      intro a ha hcontra
      rw [List.any_eq_false] at hrest
      exact hrest a ha hcontra
    rw [this, List.append_nil]
  have hany : r.trace.any isChunkEvent = tr0.any isChunkEvent := by
    rw [htr, List.any_append, hrest, Bool.or_false]
  rcases dispatchOf_ok_shape env body sc hs tr0 hdisp with
    ⟨hm, htr0⟩ | ⟨hm, p, htr0⟩ | ⟨hm, htr0⟩
  · refine ⟨fun _ => Or.inr (Or.inr (Or.inr (Or.inl hm))), ?_, ?_, ?_⟩
    · intro hmode _
      rcases hmode with hx | hx | hx | hx <;> rw [hm] at hx <;> exact absurd hx (by decide)
    · intro hmode
      rw [hm] at hmode
      exact absurd hmode (by decide)
    · intro _
      rw [hfilter, htr0]
  · refine ⟨?_, ?_, ?_, ?_⟩
    · intro _
      rcases hm with hm | hm | hm | hm
      · exact Or.inl hm
      · exact Or.inr (Or.inr (Or.inl hm))
      · exact Or.inr (Or.inl hm)
      · exact Or.inr (Or.inr (Or.inr (Or.inr hm)))
    · intro _ hss
      rw [hfilter, htr0, hss]
      simp
    · intro hmode
      rcases hm with hm | hm | hm | hm <;> rw [hmode] at hm <;> exact absurd hm (by decide)
    · intro hmode
      rcases hm with hm | hm | hm | hm <;> rw [hmode] at hm <;> exact absurd hm (by decide)
  · refine ⟨?_, ?_, ?_, ?_⟩
    · intro hchunk
      rw [hany, htr0] at hchunk
      simp at hchunk
    · intro _ _
      rw [hfilter, htr0]
    · intro _
      rw [hfilter, htr0]
    · intro hmode
      rcases hm with hm | hm | hm <;> rw [hmode] at hm <;> exact absurd hm (by decide)
theorem flatMap_const_single (x : Item) (l : List Nat) :
    l.flatMap (fun _ => [x]) = List.replicate l.length x := by
  induction l with
  | nil => rfl
  | cons b t ih => simp [List.flatMap_cons, ih, List.replicate_succ]

theorem constructExecutionMetaData_single (x : Item) (n : Nat) :
    constructExecutionMetaData [x] (generatePairedItemData n) = List.replicate n x := by
  unfold constructExecutionMetaData generatePairedItemData
  rw [flatMap_const_single, List.length_range]

/-- C3: when continue-on-fail is configured and the try body throws any
error, execute returns normally with one branch holding one error item per
input item, each carrying json with the error message, and no error
escapes to the host. -/
theorem c3_continue_on_fail (env : Env) (tr : List Event) (e : Err)
    (hcf : env.continueOnFail = true)
    (herr : runTry env = (tr, .error e)) :
    execute env = .ok
      { output := [List.replicate env.items.length { json := .obj [("error", .str e.message)] }]
        trace := tr } := by
  unfold execute
  rw [herr, hcf]
  simp only [if_true, constructExecutionMetaData_single]

/-- C3 (witness): a continue-on-fail run over two items with an invalid
JSON body returns two error items and no error. -/
theorem c3_witness :
    execute envC3invalidJson = .ok
      { output := [List.replicate 2
          { json := .obj [("error", .str "Invalid JSON in \x27Response Body\x27 field")] }]
        trace := [] } :=
  c3_continue_on_fail envC3invalidJson []
    (.nodeOp "Invalid JSON in \x27Response Body\x27 field") rfl rfl

/-- C7: from version 1.1 on, when no parent node has a webhook-style type,
execute throws the No Webhook node found error, whatever the mode, and
emits no host call; below version 1.1 the check is skipped and the run
proceeds directly to the mode dispatch. -/
theorem c7_webhook_parent_gate (env : Env) (hcf : env.continueOnFail = false) :
    (env.nodeVersion ≥ 11 → hasWebhookParent env = false →
      execute env = .error (.nodeOp "No Webhook node found in the workflow") ∧
        (runTry env).1 = []) ∧
    (env.nodeVersion < 11 → runTry env = afterCheck env) := by
  constructor
  · intro hv hw
    have hrun : runTry env =
        ([], .error (.nodeOp "No Webhook node found in the workflow")) := by
      unfold runTry
      rw [hw, decide_eq_true hv]
      rfl
    constructor
    · unfold execute
      rw [hrun, hcf]
      rfl
    · rw [hrun]
  · intro hv
    exact runTry_eq_afterCheck env (Or.inl hv)

/-- C7 (witness): a version 1.1 run with no parents fails with the missing
webhook error. -/
theorem c7_witness :
    execute envC7noParent = .error (.nodeOp "No Webhook node found in the workflow") :=
  ((c7_webhook_parent_gate envC7noParent rfl).1 (by decide) rfl).1

/-- C10: the firstIncomingItem and binary modes read the first input item
without an emptiness check, so on an empty input they fail with a raw
TypeError instead of a reported configuration error. -/
theorem c10_empty_items_type_error (env : Env)
    (hcf : env.continueOnFail = false)
    (hwb : env.nodeVersion < 11 ∨ hasWebhookParent env = true)
    (hitems : env.items = [])
    (hmode : env.respondWith = "firstIncomingItem" ∨ env.respondWith = "binary") :
    ∃ m, execute env = .error (.typeError m) := by
  have hrt := runTry_eq_afterCheck env hwb
  rcases hmode with hm | hm
  · refine ⟨"Cannot read properties of undefined (reading \x27json\x27)", ?_⟩
    have hdisp : dispatchOf env =
        ([], .error (.typeError "Cannot read properties of undefined (reading \x27json\x27)")) := by
      unfold dispatchOf dispatchMode
      simp [hm, hitems]
    have hac : afterCheck env =
        ([], .error (.typeError "Cannot read properties of undefined (reading \x27json\x27)")) := by
      unfold afterCheck
      rw [hdisp]
    unfold execute
    rw [hrt, hac, hcf]
    rfl
  · refine ⟨"Cannot read properties of undefined (reading \x27binary\x27)", ?_⟩
    have hdisp : dispatchOf env =
        ([], .error (.typeError "Cannot read properties of undefined (reading \x27binary\x27)")) := by
      unfold dispatchOf dispatchMode binaryOutcome
      simp [hm, hitems]
    have hac : afterCheck env =
        ([], .error (.typeError "Cannot read properties of undefined (reading \x27binary\x27)")) := by
      unfold afterCheck
      rw [hdisp]
    unfold execute
    rw [hrt, hac, hcf]
    rfl

/-- C10 (witness): a firstIncomingItem run on an empty input fails with a
TypeError. -/
theorem c10_witness :
    ∃ m, execute envC10empty = .error (.typeError m) :=
  c10_empty_items_type_error envC10empty rfl (Or.inl (by decide)) rfl (Or.inl rfl)
theorem isNullish_cases (v : JsVal) (h : v.isNullish = true) :
    v = .undef ∨ v = .null := by
  cases v <;> simp [JsVal.isNullish] at h <;> simp

/-- C1 (counterexample): a version 1.5 redirect run with the host
streaming succeeds, does not take the chat path, yet delivers nothing:
no chunk is emitted and sendResponse is never called. -/
theorem c1_counterexample :
    execute envRedirectStreaming = .ok { output := [[]], trace := [] } ∧
    evalChatCond envRedirectStreaming.connectedNodes = .ok false ∧
    envRedirectStreaming.shouldStream = true ∧
    deliveryCount (traceOf (execute envRedirectStreaming)) = 0 :=
  ⟨rfl, rfl, rfl, rfl⟩

/-- C1 (witness): the delivery characterization applied at a concrete
non-streaming json run, which delivers exactly once. -/
theorem c1_witness :
    deliveryCount (traceOf (execute envJsonPlain)) = expectedDeliveries envJsonPlain :=
  c1_delivery_characterization envJsonPlain
    { output := [[{ json := .obj [("a", .num 1)] }]]
      trace := [.sendResponse { body := .obj [("a", .num 1)], headers := [], statusCode := 200 }] }
    rfl rfl rfl

/-- C2 (counterexample): an allIncomingItems run with streaming disabled
still emits its begin/item/end chunks. -/
theorem c2_counterexample :
    envAllItemsNoStream.shouldStream = false ∧
    execute envAllItemsNoStream = .ok
      { output := [[{ json := .num 5 }]]
        trace := tripletTrace 0 (.num 5) ++
          [.sendResponse { body := .arr [.num 5], headers := [], statusCode := 200 }] } ∧
    (traceOf (execute envAllItemsNoStream)).any isChunkEvent = true :=
  ⟨rfl, rfl, rfl⟩

/-- C2 (witness): the chunk characterization applied at a concrete
non-streaming json run, which emits no chunk. -/
theorem c2_witness :
    (traceOf (execute envJsonPlain)).filter isChunkEvent = [] :=
  (c2_chunk_characterization envJsonPlain
    { output := [[{ json := .obj [("a", .num 1)] }]]
      trace := [.sendResponse { body := .obj [("a", .num 1)], headers := [], statusCode := 200 }] }
    rfl rfl).2.1 (Or.inl rfl) rfl

/-- C4: with an enabled upstream chat trigger configured for responseNodes
and a successfully built body, execute parks the execution via
putExecutionToWait instead of calling sendResponse and returns one item
whose sendMessage is derived from the body: the output, text or message
field in that priority order when present as a nonempty string, and the
JSON stringification of the body when all three are absent and the body is
a non-empty object. -/
theorem c4_chat_deferral (env : Env) (body : JsVal) (sc : Int) (hs : Headers) (tr0 : List Event)
    (hwb : env.nodeVersion < 11 ∨ hasWebhookParent env = true)
    (hdisp : dispatchOf env = (tr0, .ok (body, sc, hs)))
    (hchat : evalChatCond env.connectedNodes = .ok true) :
    execute env = .ok
      { output := [[{ json := .obj [], sendMessage := some (chatMessage body) }]]
        trace := tr0 ++ [Event.putExecutionToWait] } ∧
    (∀ resp, ¬ Event.sendResponse resp ∈ tr0 ++ [Event.putExecutionToWait]) ∧
    (∀ s, (body.truthy && body.typeofObject && !body.isArray) = true →
      jsGet body "output" = .str s → ¬ s = "" → chatMessage body = .str s) ∧
    (∀ s, (body.truthy && body.typeofObject && !body.isArray) = true →
      (jsGet body "output").isNullish = true →
      jsGet body "text" = .str s → ¬ s = "" → chatMessage body = .str s) ∧
    (∀ s, (body.truthy && body.typeofObject && !body.isArray) = true →
      (jsGet body "output").isNullish = true → (jsGet body "text").isNullish = true →
      jsGet body "message" = .str s → ¬ s = "" → chatMessage body = .str s) ∧
    ((body.truthy && body.typeofObject && !body.isArray) = true →
      (jsGet body "output").isNullish = true → (jsGet body "text").isNullish = true →
      (jsGet body "message").isNullish = true → 0 < jsKeysCount body →
      chatMessage body = .str (jsStringify body)) := by
  refine ⟨?_, ?_, ?_, ?_, ?_, ?_⟩
  · unfold execute
    rw [runTry_eq_afterCheck env hwb]
    have hac : afterCheck env = (tr0 ++ [Event.putExecutionToWait],
        .ok [[{ json := .obj [], sendMessage := some (chatMessage body) }]]) := by
      unfold afterCheck
      rw [hdisp, hchat]
    rw [hac]
  · intro resp hmem
    rcases List.mem_append.mp hmem with hmem | hmem
    · have hall := dispatch_trace_all_chunk env body sc hs tr0 hdisp
      exact no_resp_mem_of_all_chunk tr0 hall resp hmem
    · simp at hmem
  · intro s hobj hout hs0
    unfold chatMessage
    simp [hobj, hout, JsVal.isNullish, isEmptyStr, beq_eq_false_iff_ne.mpr hs0]
  · intro s hobj hout0 htext hs0
    rcases isNullish_cases _ hout0 with hjo | hjo <;>
      · unfold chatMessage
        simp [hobj, hjo, htext, JsVal.isNullish, isEmptyStr, beq_eq_false_iff_ne.mpr hs0]
  · intro s hobj hout0 htext0 hmsg hs0
    rcases isNullish_cases _ hout0 with hjo | hjo <;>
      rcases isNullish_cases _ htext0 with hjt | hjt <;>
      · unfold chatMessage
        simp [hobj, hjo, hjt, hmsg, JsVal.isNullish, isEmptyStr, beq_eq_false_iff_ne.mpr hs0]
  · intro hobj hout0 htext0 hmsg0 hk
    rcases isNullish_cases _ hout0 with hjo | hjo <;>
      rcases isNullish_cases _ htext0 with hjt | hjt <;>
      rcases isNullish_cases _ hmsg0 with hjm | hjm <;>
      · unfold chatMessage
        simp [hobj, hjo, hjt, hjm, JsVal.isNullish, isEmptyStr, hk]

/-- C4 (witness): a chat-deferral run whose json body has an output field
parks the execution and hands off that field as the message. -/
theorem c4_witness :
    execute envC4chat = .ok
      { output := [[{ json := .obj [], sendMessage := some (.str "hi") }]]
        trace := [Event.putExecutionToWait] } :=
  (c4_chat_deferral envC4chat (.obj [("output", .str "hi")]) 200 [] []
    (Or.inr rfl) rfl rfl).1

/-- C8: when the chat-deferral path is taken and the built body is an
array or not an object, the handed-off message is always the empty
string. -/
theorem c8_chat_message_empty (env : Env) (body : JsVal) (sc : Int) (hs : Headers)
    (tr0 : List Event)
    (hwb : env.nodeVersion < 11 ∨ hasWebhookParent env = true)
    (hdisp : dispatchOf env = (tr0, .ok (body, sc, hs)))
    (hchat : evalChatCond env.connectedNodes = .ok true)
    (hshape : body.isArray = true ∨ (body.truthy && body.typeofObject) = false) :
    execute env = .ok
      { output := [[{ json := .obj [], sendMessage := some (.str "") }]]
        trace := tr0 ++ [Event.putExecutionToWait] } := by
  have hmsg : chatMessage body = .str "" := by
    unfold chatMessage
    rcases hshape with h | h
    · simp [h]
    · simp [h]
  unfold execute
  rw [runTry_eq_afterCheck env hwb]
  have hac : afterCheck env = (tr0 ++ [Event.putExecutionToWait],
      .ok [[{ json := .obj [], sendMessage := some (chatMessage body) }]]) := by
    unfold afterCheck
    rw [hdisp, hchat]
  rw [hmsg] at hac
  rw [hac]

/-- C8 (witness): a chat-deferral text run (string body) hands off the
empty message. -/
theorem c8_witness :
    execute envC8textChat = .ok
      { output := [[{ json := .obj [], sendMessage := some (.str "") }]]
        trace := [Event.putExecutionToWait] } :=
  c8_chat_message_empty envC8textChat (.str (sandboxHtmlResponse "hello")) 200 [] []
    (Or.inr rfl) rfl rfl (Or.inr rfl)

/-- C9: if an enabled chat trigger is found whose parameters are missing
or lack an options object, the unguarded dereference in the chat check
raises a raw TypeError (not a NodeOperationError) after the body has been
built, and it escapes when continue-on-fail is off. -/
theorem c9_chat_missing_options_type_error (env : Env) (n : ConnectedNode)
    (body : JsVal) (sc : Int) (hs : Headers) (tr0 : List Event)
    (hcf : env.continueOnFail = false)
    (hwb : env.nodeVersion < 11 ∨ hasWebhookParent env = true)
    (hdisp : dispatchOf env = (tr0, .ok (body, sc, hs)))
    (hfind : env.connectedNodes.find?
      (fun nd => nd.type == CHAT_TRIGGER_NODE_TYPE && !nd.disabled) = some n)
    (hnoopt : n.parameters = none ∨ n.parameters = some { options := none }) :
    ∃ m, execute env = .error (.typeError m) := by
  obtain ⟨m, hchat⟩ : ∃ m, evalChatCond env.connectedNodes = .error (.typeError m) := by
    rcases hnoopt with h | h
    · refine ⟨"Cannot read properties of undefined (reading \x27options\x27)", ?_⟩
      unfold evalChatCond
      rw [hfind]
      simp [h]
    · refine ⟨"Cannot read properties of undefined (reading \x27responseMode\x27)", ?_⟩
      unfold evalChatCond
      rw [hfind]
      simp [h]
  refine ⟨m, ?_⟩
  unfold execute
  rw [runTry_eq_afterCheck env hwb]
  have hac : afterCheck env = (tr0, .error (.typeError m)) := by
    unfold afterCheck
    rw [hdisp, hchat]
  rw [hac, hcf]
  rfl

/-- C9 (witness): a run with an enabled chat trigger missing its options
object fails with a TypeError. -/
theorem c9_witness :
    ∃ m, execute envC9chat = .error (.typeError m) :=
  c9_chat_missing_options_type_error envC9chat chatTriggerNodeNoOptions .undef 200 [] []
    rfl (Or.inr rfl) rfl rfl (Or.inr rfl)
/-- C5 (counterexample): with an explicit field name configured and a
present-but-empty binary object on the first item, the failure comes from
the assertBinaryData helper with its own message, not the claimed
No binary data exists on the first item! message. -/
theorem c5_counterexample :
    execute envC5setEmpty = .error (assertBinaryDataErr "data") ∧
    ¬ assertBinaryDataErr "data" =
        Err.nodeOp "No binary data exists on the first item!" :=
  ⟨rfl, by decide⟩

/-- C5 (amended): for mode binary, when the first item carries no binary
attachment at all the run fails with the No binary data error under both
data-source configurations, and with the automatic source a
present-but-empty binary object fails the same way; only an explicit
field name over a present-but-empty binary object surfaces the
assertBinaryData error instead. -/
theorem c5_no_binary_data_error (env : Env) (first : Item) (rest : List Item)
    (hcf : env.continueOnFail = false)
    (hwb : env.nodeVersion < 11 ∨ hasWebhookParent env = true)
    (hmode : env.respondWith = "binary")
    (hitems : env.items = first :: rest)
    (hbin : first.binary = none ∨
      (first.binary = some [] ∧ ¬ env.responseDataSource = "set")) :
    execute env = .error (.nodeOp "No binary data exists on the first item!") := by
  have hout : binaryOutcome env (buildHeaders env.options) =
      .error (.nodeOp "No binary data exists on the first item!") := by
    unfold binaryOutcome
    rcases hbin with hb | ⟨hb, hset⟩
    · simp [hitems, hb]
    · have hsf : (env.responseDataSource == "set") = false := beq_eq_false_iff_ne.mpr hset
      simp [hitems, hb, hsf]
  have hdisp : dispatchOf env =
      ([], .error (.nodeOp "No binary data exists on the first item!")) := by
    unfold dispatchOf dispatchMode
    simp [hmode, hout]
  have hac : afterCheck env =
      ([], .error (.nodeOp "No binary data exists on the first item!")) := by
    unfold afterCheck
    rw [hdisp]
  unfold execute
  rw [runTry_eq_afterCheck env hwb, hac, hcf]
  rfl

/-- C5 (witness): a binary run whose first item has no binary attachment
fails with the No binary data error. -/
theorem c5_witness :
    execute envC5none = .error (.nodeOp "No binary data exists on the first item!") :=
  c5_no_binary_data_error envC5none { json := .obj [] } [] rfl (Or.inr rfl) rfl rfl
    (Or.inl rfl)
/-- C6: for mode text, every response handed to sendResponse carries the
HTML-sanitized form of the configured string when the content-type header
is unset or HTML-rendering, and the raw configured string unchanged when a
nonempty non-HTML content type is set. -/
theorem c6_text_sanitization (env : Env) (r : ExecResult)
    (hmode : env.respondWith = "text")
    (hcf : env.continueOnFail = false)
    (hok : execute env = .ok r) :
    ∀ resp : HttpResponse, Event.sendResponse resp ∈ r.trace →
      ((headerLookup (buildHeaders env.options) "content-type" = none →
          resp.body = .str (sandboxHtmlResponse env.responseBodyTextParam)) ∧
       (∀ ct, headerLookup (buildHeaders env.options) "content-type" = some ct →
          isHtmlRenderedContentType ct = true →
          resp.body = .str (sandboxHtmlResponse env.responseBodyTextParam)) ∧
       (∀ ct, headerLookup (buildHeaders env.options) "content-type" = some ct →
          ¬ ct = "" → isHtmlRenderedContentType ct = false →
          resp.body = .str env.responseBodyTextParam)) := by
  intro resp hmem
  have hrt := execute_ok_inv env r hcf hok
  have hac := runTry_ok_afterCheck env _ _ hrt
  obtain ⟨body, sc, hs, tr0, hdisp, hcase⟩ := afterCheck_ok_inv env _ _ hac
  have hall := dispatch_trace_all_chunk env body sc hs tr0 hdisp
  have hbody : body =
      .str (textBranchBody env (buildHeaders env.options) (hasHtmlCT (buildHeaders env.options))) := by
    unfold dispatchOf dispatchMode at hdisp
    simp [hmode] at hdisp
    exact hdisp.2.1.symm
  have hrespbody : resp.body = body := by
    rcases hcase with ⟨_, htr, _⟩ | ⟨_, htr, _⟩
    · rw [htr] at hmem
      rcases List.mem_append.mp hmem with hm | hm
      · exact absurd hm (no_resp_mem_of_all_chunk tr0 hall resp)
      · simp at hm
    · rw [htr] at hmem
      rcases List.mem_append.mp hmem with hm | hm
      · exact absurd hm (no_resp_mem_of_all_chunk tr0 hall resp)
      · unfold sendPart at hm
        split at hm
        · simp at hm
          have hfb : finalizeBody env body = body := by
            unfold finalizeBody
            simp [hmode]
          rw [hm, hfb]
        · simp at hm
  refine ⟨?_, ?_, ?_⟩
  · intro hct
    rw [hrespbody, hbody]
    unfold textBranchBody ctTruthy
    simp [hct]
  · intro ct hct hhtml
    have hne : (ct == "") = false := by
      rcases hc : (ct == "") with h | h
      · rfl
      · have : ct = "" := by
          rwa [beq_iff_eq] at hc
        rw [this] at hhtml
        exact absurd hhtml (by decide)
    rw [hrespbody, hbody]
    unfold textBranchBody hasHtmlCT
    simp [hct, hne, hhtml]
  · intro ct hct hne hnothtml
    have hnb : (ct == "") = false := beq_eq_false_iff_ne.mpr hne
    rw [hrespbody, hbody]
    unfold textBranchBody hasHtmlCT ctTruthy
    simp [hct, hnb, hnothtml]

/-- C6 (witness): the sanitization rule applied at a concrete text run
with no configured content type: the sent body is the sanitized string. -/
theorem c6_witness :
    HttpResponse.body
      { body := .str (sandboxHtmlResponse "<script>x</script>")
        headers := []
        statusCode := 200 } = .str (sandboxHtmlResponse "<script>x</script>") :=
  (c6_text_sanitization envC6text
    { output := [[{ json := .num 1 }]]
      trace := [.sendResponse
        { body := .str (sandboxHtmlResponse "<script>x</script>")
          headers := []
          statusCode := 200 }] }
    rfl rfl rfl _ (List.mem_singleton.mpr rfl)).1 rfl
